import Mathlib

/-!
Verification of the analysis pipeline of the movieTag-GUI repository
(`src/app.py`).

The file embeds, as executable Lean definitions:

* the Python string operations used by `generate_analysis` (lines 28-75 of
  `app.py`): `str.strip`, the markdown-fence stripping of lines 63-67, and
  the construction of the prompt f-string of lines 36-57;
* the behaviour of `json.loads` from the Python standard library on the
  JSON subset the application exchanges (objects, arrays, strings,
  booleans, `null`, and integer numerals; floating-point numerals and
  `\u` string escapes are outside the subset exercised by the app's
  responses), including CPython's `JSONDecodeError` positions and message
  texts on the failure paths the app can hit;
* the error handling of `generate_analysis`: the whole body runs under
  `try/except Exception`, which reports one Streamlit error message
  (`st.error` with the Japanese header of line 74 followed by `str(e)`)
  and returns `None`;
* the rendering block of lines 124-137, which subscripts the result
  dictionary and joins its lists, and the module-level `finally` block of
  lines 145-151, which closes the media handle and deletes the two
  temporary files.

External effects are made observable: an `Outcome` records whether the
generative API was invoked, how many times, with which prompt, which error
message was displayed, and the returned value.
-/

namespace MovieTag

/-! ### Python string primitives (on `List Char`) -/

/-- Whitespace characters removed by Python `str.strip()` (the ASCII
whitespace set, which covers every response text considered here). -/
def pyWs (c : Char) : Bool :=
  c = ' ' || c = '\t' || c = '\n' || c = '\r' || c = '\x0b' || c = '\x0c'

/-- Python `s.strip()`: remove leading and trailing whitespace. -/
def pyStrip (s : List Char) : List Char :=
  ((s.dropWhile pyWs).reverse.dropWhile pyWs).reverse

/-- Python `s[:-n]` for `n ≤ len(s)`: drop the last `n` characters. -/
def dropLastN (n : Nat) (s : List Char) : List Char :=
  (s.reverse.drop n).reverse

/-- Python `s.endswith(suf)`. -/
def endsWithL (suf s : List Char) : Bool :=
  suf.reverse.isPrefixOf s.reverse

/-- The leading fence marker tested at line 64 of `app.py`
(marker token plus language tag). -/
def leadMarker : List Char := "```json".toList

/-- The trailing fence marker tested at line 66 of `app.py`. -/
def tailMarker : List Char := "```".toList

/-- Lines 64-67 of `app.py`, applied to the already-stripped response
text: drop a leading ```` ```json ```` (7 characters) when present, then
drop a trailing ```` ``` ```` (3 characters) when present on the text
obtained so far. -/
def stripFences (s : List Char) : List Char :=
  let s1 := if leadMarker.isPrefixOf s then s.drop 7 else s
  if endsWithL tailMarker s1 then dropLastN 3 s1 else s1

/-- Line 63 plus lines 64-67 of `app.py`: `response.text.strip()` followed
by the fence stripping. -/
def recoverText (raw : String) : List Char :=
  stripFences (pyStrip raw.toList)

/-! ### A model of `json.loads`

Python values that `json.loads` can return on the subset of JSON the
application exchanges. Objects keep their member list in source order
(duplicate keys are resolved at lookup, later members winning, as for a
Python `dict` built from ordered pairs). -/

inductive PyJson where
  | null
  | boolean (b : Bool)
  | intNum (n : Int)
  | str (s : String)
  | arr (items : List PyJson)
  | obj (pairs : List (String × PyJson))

/-- A decoding failure: the CPython `JSONDecodeError` message stem and the
character position at which it was raised. -/
structure PErr where
  kind : String
  pos : Nat
deriving DecidableEq

/-- Render a `PErr` the way CPython formats `JSONDecodeError`:
`msg: line L column C (char P)`, with lines and columns computed from the
document being parsed. -/
def renderPErr (doc : List Char) (e : PErr) : String :=
  let consumed := doc.take e.pos
  let line := 1 + (consumed.filter (fun c => c = '\n')).length
  let col := 1 + (consumed.reverse.takeWhile (fun c => c ≠ '\n')).length
  e.kind ++ ": line " ++ toString line ++ " column " ++ toString col ++
    " (char " ++ toString e.pos ++ ")"

/-- JSON insignificant whitespace (as in CPython's `json` scanner). -/
def jsonWs (c : Char) : Bool :=
  c = ' ' || c = '\t' || c = '\n' || c = '\r'

/-- Skip insignificant whitespace, advancing the character position. -/
def skipJsonWs : List Char → Nat → List Char × Nat
  | c :: rest, p => if jsonWs c then skipJsonWs rest (p + 1) else (c :: rest, p)
  | [], p => ([], p)

/-- Single-character JSON string escapes (the `\u` form is outside the
subset exercised here and is rejected). -/
def escChar : Char → Option Char
  | '"' => some '"'
  | '\\' => some '\\'
  | '/' => some '/'
  | 'b' => some (Char.ofNat 8)
  | 'f' => some (Char.ofNat 12)
  | 'n' => some '\n'
  | 'r' => some '\r'
  | 't' => some '\t'
  | _ => none

/-- Parse the body of a JSON string, the opening quote (at position
`start`) already consumed. Returns the decoded string, the remaining
characters and the position just past the closing quote. -/
def parseJString (start : Nat) (acc : List Char) :
    List Char → Nat → Except PErr (String × List Char × Nat)
  | '"' :: rest, p => .ok (String.mk acc.reverse, rest, p + 1)
  | '\\' :: c :: rest, p =>
    match escChar c with
    | some ch => parseJString start (ch :: acc) rest (p + 2)
    | none => .error ⟨"Invalid \\escape", p⟩
  | c :: rest, p =>
    if c.toNat < 32 then .error ⟨"Invalid control character at", p⟩
    else parseJString start (c :: acc) rest (p + 1)
  | [], _ => .error ⟨"Unterminated string starting at", start⟩

/-- Take a maximal run of decimal digits. -/
def takeDigitsL : List Char → List Char × List Char
  | c :: rest =>
    if c.isDigit then
      let (ds, r) := takeDigitsL rest
      (c :: ds, r)
    else ([], c :: rest)
  | [] => ([], [])

/-- Numeric value of a digit run. -/
def digitsToNat (ds : List Char) : Nat :=
  ds.foldl (fun acc c => acc * 10 + (c.toNat - '0'.toNat)) 0

/-- Parse an integer numeral (optional minus sign and digits); the only
numeral form the exchanged responses use. -/
def parseIntNum (s : List Char) (p : Nat) :
    Except PErr (PyJson × List Char × Nat) :=
  match s with
  | '-' :: rest =>
    let (ds, r) := takeDigitsL rest
    if ds.isEmpty then .error ⟨"Expecting value", p⟩
    else .ok (.intNum (-(digitsToNat ds : Int)), r, p + 1 + ds.length)
  | _ =>
    let (ds, r) := takeDigitsL s
    if ds.isEmpty then .error ⟨"Expecting value", p⟩
    else .ok (.intNum (digitsToNat ds : Int), r, p + ds.length)

/-- What the fueled parser is currently parsing: a value, the members of
an object (after `{` and any leading whitespace), or the items of an
array. Accumulators hold the members and items read so far, reversed. -/
inductive PTask where
  | value
  | members (acc : List (String × PyJson))
  | items (acc : List PyJson)

/-- The recursive JSON parser, recursion on the fuel counter (any fuel
larger than the input length is sufficient). Error positions and message
stems follow CPython's `json` scanner. -/
def parseF (fuel : Nat) (task : PTask) (s : List Char) (p : Nat) :
    Except PErr (PyJson × List Char × Nat) :=
  match fuel with
  | 0 => .error ⟨"Expecting value", p⟩
  | f + 1 =>
    match task with
    | .value =>
      match s with
      | '"' :: rest =>
        match parseJString p [] rest (p + 1) with
        | .ok (str, r, q) => .ok (.str str, r, q)
        | .error e => .error e
      | '{' :: rest =>
        let (s1, p1) := skipJsonWs rest (p + 1)
        match s1 with
        | '}' :: r2 => .ok (.obj [], r2, p1 + 1)
        | _ => parseF f (.members []) s1 p1
      | '[' :: rest =>
        let (s1, p1) := skipJsonWs rest (p + 1)
        match s1 with
        | ']' :: r2 => .ok (.arr [], r2, p1 + 1)
        | _ => parseF f (.items []) s1 p1
      | c :: _ =>
        if "true".toList.isPrefixOf s then .ok (.boolean true, s.drop 4, p + 4)
        else if "false".toList.isPrefixOf s then .ok (.boolean false, s.drop 5, p + 5)
        else if "null".toList.isPrefixOf s then .ok (.null, s.drop 4, p + 4)
        else if c = '-' || c.isDigit then parseIntNum s p
        else .error ⟨"Expecting value", p⟩
      | [] => .error ⟨"Expecting value", p⟩
    | .members acc =>
      match s with
      | '"' :: rest =>
        match parseJString p [] rest (p + 1) with
        | .error e => .error e
        | .ok (key, r1, q1) =>
          let (s2, p2) := skipJsonWs r1 q1
          match s2 with
          | ':' :: r3 =>
            let (s4, p4) := skipJsonWs r3 (p2 + 1)
            match parseF f .value s4 p4 with
            | .error e => .error e
            | .ok (v, r5, p5) =>
              let (s6, p6) := skipJsonWs r5 p5
              match s6 with
              | ',' :: r7 =>
                let (s8, p8) := skipJsonWs r7 (p6 + 1)
                parseF f (.members ((key, v) :: acc)) s8 p8
              | '}' :: r7 => .ok (.obj (((key, v) :: acc).reverse), r7, p6 + 1)
              | _ => .error ⟨"Expecting \x27,\x27 delimiter", p6⟩
          | _ => .error ⟨"Expecting \x27:\x27 delimiter", p2⟩
      | _ => .error ⟨"Expecting property name enclosed in double quotes", p⟩
    | .items acc =>
      match parseF f .value s p with
      | .error e => .error e
      | .ok (v, r1, p1) =>
        let (s2, p2) := skipJsonWs r1 p1
        match s2 with
        | ',' :: r3 =>
          let (s4, p4) := skipJsonWs r3 (p2 + 1)
          parseF f (.items (v :: acc)) s4 p4
        | ']' :: r3 => .ok (.arr ((v :: acc).reverse), r3, p2 + 1)
        | _ => .error ⟨"Expecting \x27,\x27 delimiter", p2⟩

/-- The model of `json.loads`: skip leading whitespace, parse one value,
skip trailing whitespace, and require the input to be exhausted. -/
def loads (doc : List Char) : Except PErr PyJson :=
  let (s1, p1) := skipJsonWs doc 0
  match parseF (doc.length + 1) .value s1 p1 with
  | .error e => .error e
  | .ok (j, rest, p2) =>
    let (s3, p3) := skipJsonWs rest p2
    match s3 with
    | [] => .ok j
    | _ => .error ⟨"Extra data", p3⟩

/-! ### Python dict semantics and truthiness -/

/-- Lookup in the dictionary built from an ordered member list: a later
duplicate key overrides an earlier one, as in `dict(pairs)`. -/
def dictGet (pairs : List (String × PyJson)) (key : String) : Option PyJson :=
  match pairs.reverse.find? (fun kv => kv.1 == key) with
  | some kv => some kv.2
  | none => none

/-- Python truthiness of the parsed value, as tested by
`if analysis_result:` at line 124 of `app.py`. -/
def pyTruthy : PyJson → Bool
  | .null => false
  | .boolean b => b
  | .intNum n => n != 0
  | .str s => !s.isEmpty
  | .arr items => !items.isEmpty
  | .obj pairs => !pairs.isEmpty

/-- Whether `needle` occurs as a contiguous run inside `hay`
(Python `needle in hay` on strings). -/
def containsRun (needle : List Char) : List Char → Bool
  | [] => needle.isEmpty
  | c :: rest => needle.isPrefixOf (c :: rest) || containsRun needle rest

/-! ### Prompt construction (lines 34-57 of `app.py`) -/

/-- The fixed category vocabulary, lines 14-19 of `app.py`. -/
def CATEGORIES : List String :=
  ["教育", "経済・金融", "宇宙・物理", "AI・情報", "環境",
   "食料・農業・水産業", "ロボット・技術革新", "生命・医療", "文化・芸術",
   "歴史・哲学", "国際関係", "都市・建築", "人口・社会問題", "数理",
   "エネルギー・資源", "災害・防災", "心理・認知科学"]

/-- The f-string of lines 36-57 of `app.py`, with
`category_list_str = ", ".join(vocab)` (line 34) and the numeric
placeholder rendered as Python renders a non-negative `int`. The literal
text, indentation and line breaks reproduce the source template. -/
def buildPrompt (text : String) (numKeywords : Nat) (vocab : List String) : String :=
  let categoryListStr := String.intercalate ", " vocab
  "\n        以下の文章は、ある講義を文字起こししたものです。\n\n        ### 指示 ###\n        1. この講義内容を200文字程度で要約してください。\n        2. 要約内容から、最も関連性の高いキーワードを"
    ++ toString numKeywords ++
    "個抽出してください。\n        3. 以下のカテゴリリストから、この講義内容に最も関連するものをすべて選んでください。\n        4. 結果を必ず以下のJSON形式で出力してください。\n        \x7b\n          \"summary\": \"（ここに要約文）\",\n          \"keywords\": [\"キーワード1\", \"キーワード2\", ...],\n          \"categories\": [\"カテゴリA\", \"カテゴリB\", ...]\n        \x7d\n\n        ### カテゴリリスト ###\n        "
    ++ categoryListStr ++
    "\n\n        ### 文章 ###\n        ---\n        " ++ text ++ "\n        ---\n        "

/-! ### The analysis pipeline `generate_analysis` (lines 28-75) -/

/-- A failure of the external `model.generate_content` call, as the
`google.generativeai` provider raises them; `detail` models `str(e)`. -/
inductive ApiFailure where
  | authError (detail : String)
  | quotaError (detail : String)
  | networkError (detail : String)
  | otherError (detail : String)

/-- Python `str(e)` of the provider exception. -/
def ApiFailure.pyStr : ApiFailure → String
  | .authError d => d
  | .quotaError d => d
  | .networkError d => d
  | .otherError d => d

/-- The observable outcome of one `generate_analysis` call: whether and
how often the outbound generative call was made, the prompt it was sent,
the `st.error` message displayed (if any) and the Python return value
(`None` modelled as `none`). -/
structure Outcome where
  apiCalled : Bool
  apiCalls : Nat
  promptSent : Option String
  errorShown : Option String
  retval : Option PyJson

/-- The fixed header of the `st.error` message at line 74 of `app.py`
(the part before `str(e)`). -/
def errHeader : String :=
  "Gemini APIとの連携中または結果の解析中にエラーが発生しました: "

/-- Lines 28-75 of `app.py`. The body is linear: configure the client,
build the prompt, invoke `model.generate_content(prompt)` (its behaviour
is the `response` argument: either the raised provider exception or the
response text), strip whitespace and fences, `json.loads` the rest, and
return the parsed value. Any exception lands in the
`except Exception` clause, which shows one error message and returns
`None`. There is no transcript validation and no retry. -/
def generateAnalysis (text apiKey : String) (numKeywords : Nat)
    (response : Except ApiFailure String) : Outcome :=
  let promptText := buildPrompt text numKeywords CATEGORIES
  match response with
  | .error e =>
    { apiCalled := true, apiCalls := 1, promptSent := some promptText,
      errorShown := some (errHeader ++ e.pyStr), retval := none }
  | .ok raw =>
    let cleaned := recoverText raw
    match loads cleaned with
    | .error pe =>
      { apiCalled := true, apiCalls := 1, promptSent := some promptText,
        errorShown := some (errHeader ++ renderPErr cleaned pe), retval := none }
    | .ok j =>
      { apiCalled := true, apiCalls := 1, promptSent := some promptText,
        errorShown := none, retval := some j }

/-- The `categories` list of an outcome's return value, when the value is
a dictionary whose `categories` entry is a list. -/
def categoriesOf (o : Outcome) : Option (List PyJson) :=
  match o.retval with
  | some (.obj pairs) =>
    match dictGet pairs "categories" with
    | some (.arr items) => some items
    | _ => none
  | _ => none

/-! ### The rendering block (lines 124-137 of `app.py`) -/

/-- A Python exception escaping the rendering block. -/
inductive PyExc where
  | keyError (key : String)
  | typeError (detail : String)
deriving DecidableEq

/-- Python subscription `value[key]` with a string key. -/
def pySubscript (j : PyJson) (key : String) : Except PyExc PyJson :=
  match j with
  | .obj pairs =>
    match dictGet pairs key with
    | some v => .ok v
    | none => .error (.keyError key)
  | .str _ => .error (.typeError "string indices must be integers")
  | .arr _ => .error (.typeError "list indices must be integers")
  | _ => .error (.typeError "object is not subscriptable")

/-- Each joined item must be a Python `str`. -/
def strItems : List PyJson → Except PyExc (List String)
  | [] => .ok []
  | .str s :: rest =>
    match strItems rest with
    | .ok l => .ok (s :: l)
    | .error e => .error e
  | _ :: _ => .error (.typeError "sequence item: expected str instance")

/-- Python `sep.join(value)`: joins a list of strings, or the characters
of a string; anything else raises `TypeError`. -/
def pyJoin (sep : String) (j : PyJson) : Except PyExc String :=
  match j with
  | .arr items =>
    match strItems items with
    | .ok l => .ok (String.intercalate sep l)
    | .error e => .error e
  | .str s => .ok (String.intercalate sep (s.toList.map (fun c => String.mk [c])))
  | _ => .error (.typeError "can only join an iterable")

/-- One widget displayed by the rendering block. -/
inductive Shown where
  | statusSuccess (t : String)
  | statusError (t : String)
  | header (t : String)
  | markdown (t : String)
  | info (v : PyJson)
  | transcriptArea (t : String)

/-- Lines 124-139 of `app.py`: when the analysis result is truthy, render
the categories (joined with `、`), the summary, the keywords (joined) and
the transcript expander, evaluating the subscripts and joins in source
order; a falsy or absent result renders the failure status instead. Any
raised `PyExc` aborts the block (to be caught by the handler's generic
`except` at line 141). -/
def renderResult (analysisResult : Option PyJson) (transcribedText : String) :
    Except PyExc (List Shown) :=
  match analysisResult with
  | none => .ok [.statusError "分析結果の取得に失敗しました。"]
  | some j =>
    if pyTruthy j then
      match pySubscript j "categories" with
      | .error e => .error e
      | .ok cats =>
        match pyJoin "、" cats with
        | .error e => .error e
        | .ok catsJoined =>
          match pySubscript j "summary" with
          | .error e => .error e
          | .ok summaryVal =>
            match pySubscript j "keywords" with
            | .error e => .error e
            | .ok kws =>
              match pyJoin "、" kws with
              | .error e => .error e
              | .ok kwJoined =>
                .ok [.statusSuccess "処理が完了しました！",
                     .header "関連カテゴリ",
                     .markdown ("#### **" ++ catsJoined ++ "**"),
                     .header "AIによる要約",
                     .info summaryVal,
                     .header "抽出されたキーワード",
                     .markdown ("##### " ++ kwJoined),
                     .transcriptArea transcribedText]
    else .ok [.statusError "分析結果の取得に失敗しました。"]

/-! ### The upload handler's resource lifecycle (lines 101-151) -/

/-- Resource events of one upload-handler run, in execution order. -/
inductive FlowEv where
  | clipOpened
  | audioWritten
  | clipClosed
  | videoRemoved
  | audioRemoved
deriving DecidableEq

/-- Where (if anywhere) the `try` block of lines 106-139 stops early.
`analysisFails` covers both a service failure and a parse failure inside
`generate_analysis` (which swallows them and returns `None`);
`renderRaises` covers an exception from the rendering block, caught by
the `except` at line 141. -/
inductive RunScenario where
  | clipOpenRaises
  | audioWriteRaises
  | transcribeRaises
  | analysisFails
  | renderRaises
  | fullSuccess
deriving DecidableEq

/-- Handler state: which temporary files exist on disk, whether the media
handle is open, which local names are bound, and the event trace. -/
structure HandlerSt where
  videoOnDisk : Bool
  audioOnDisk : Bool
  clipOpen : Bool
  clipDefined : Bool
  audioDefined : Bool
  trace : List FlowEv

/-- State after the `with tempfile...` block and the `try` block
(lines 101-139). The uploaded bytes are on disk and `video_path` is bound
before the `try` begins. If `VideoFileClip` raises, neither `video_clip`
nor `audio_path` is ever bound; otherwise both are, and the audio file is
on disk (taken to exist even when `write_audiofile` raises midway, the
worst case for cleanup). -/
def afterTry : RunScenario → HandlerSt
  | .clipOpenRaises =>
    { videoOnDisk := true, audioOnDisk := false, clipOpen := false,
      clipDefined := false, audioDefined := false, trace := [] }
  | .audioWriteRaises =>
    { videoOnDisk := true, audioOnDisk := true, clipOpen := true,
      clipDefined := true, audioDefined := true, trace := [.clipOpened] }
  | _ =>
    { videoOnDisk := true, audioOnDisk := true, clipOpen := true,
      clipDefined := true, audioDefined := true,
      trace := [.clipOpened, .audioWritten] }

/-- The `finally` block, lines 145-151: close `video_clip` when bound,
then delete the video file when its path is bound and it exists, then
likewise the audio file. -/
def afterFinally (st : HandlerSt) : HandlerSt :=
  let st1 :=
    if st.clipDefined then
      { st with clipOpen := false, trace := st.trace ++ [FlowEv.clipClosed] }
    else st
  let st2 :=
    if st1.videoOnDisk then
      { st1 with videoOnDisk := false, trace := st1.trace ++ [FlowEv.videoRemoved] }
    else st1
  if st2.audioDefined && st2.audioOnDisk then
    { st2 with audioOnDisk := false, trace := st2.trace ++ [FlowEv.audioRemoved] }
  else st2

/-- One full upload-handler run under the given scenario. -/
def runUploadHandler (sc : RunScenario) : HandlerSt :=
  afterFinally (afterTry sc)

/-- In a trace, the media handle is released before its backing video
file is deleted: whenever a handle was opened and the deletion event
occurs, a close event occurs at a strictly earlier index. (A run in which
`VideoFileClip` itself raised never had an open handle, so deletion alone
is fine there.) -/
def closeBeforeRemove (evs : List FlowEv) : Bool :=
  match evs.findIdx? (fun e => e == FlowEv.videoRemoved) with
  | none => true
  | some k =>
    match evs.findIdx? (fun e => e == FlowEv.clipOpened) with
    | none => true
    | some _ =>
      match evs.findIdx? (fun e => e == FlowEv.clipClosed) with
      | none => false
      | some i => decide (i < k)

/-! ### Concrete response fixtures -/

/-- The raw model response of the spec's worked example: a fenced JSON
object with two keywords and three categories. -/
def specRawResponse : String :=
  "```json\n\x7b\"summary\":\"s\",\"keywords\":[\"a\",\"b\"],\"categories\":[\"X\",\"Y\",\"Z\"]\x7d\n```"

/-- The value `json.loads` yields for `specRawResponse` after fence
stripping: all three categories present. -/
def specParsedResult : PyJson :=
  .obj [("summary", .str "s"),
        ("keywords", .arr [.str "a", .str "b"]),
        ("categories", .arr [.str "X", .str "Y", .str "Z"])]

/-- The result the spec's example asserts for `max_categories = 2`
(categories truncated to the first two entries). Written from the spec's
words, to be compared with what the code actually returns. -/
def specClaimedResult : PyJson :=
  .obj [("summary", .str "s"),
        ("keywords", .arr [.str "a", .str "b"]),
        ("categories", .arr [.str "X", .str "Y"])]

/-! ### Helper lemmas -/

theorem dropAppend (l t : List Char) : (l ++ t).drop l.length = t := by
  induction l with
  | nil => rfl
  | cons a as ih => simp [ih]

theorem isPrefixOfAppendSelf (l t : List Char) :
    l.isPrefixOf (l ++ t) = true := by
  induction l with
  | nil => simp
  | cons a as ih => simp [List.isPrefixOf_cons₂, ih]

/-! ### C1 — category truncation -/

/-- C1 counterexample: the claim says the categories sequence returned by
`generate_analysis` has length at most `max_categories = 2`, truncated
before being handed to the caller. On the example response with three
categories the code returns all three, and 3 ≤ 2 fails, so the claim is
false. -/
theorem c1_counterexample :
    categoriesOf (generateAnalysis "講義テキスト" "key" 10 (Except.ok specRawResponse)) =
      some [PyJson.str "X", PyJson.str "Y", PyJson.str "Z"] ∧
    ¬ ([PyJson.str "X", PyJson.str "Y", PyJson.str "Z"].length ≤ 2) :=
  ⟨rfl, by decide⟩

/-- C1 amended: `generate_analysis` applies no truncation at all — there
is no `max_categories` in the code, and whenever the recovered response
text parses, the parsed value is returned unchanged, so the categories
list keeps its full upstream length (the category bound is effectively
unbounded). -/
theorem c1_amended (text apiKey : String) (numKeywords : Nat) (raw : String)
    (j : PyJson) (h : loads (recoverText raw) = Except.ok j) :
    (generateAnalysis text apiKey numKeywords (Except.ok raw)).retval = some j := by
  simp [generateAnalysis, h]

/-- Witness for `c1_amended` at the example response. -/
theorem c1_amended_witness :
    (generateAnalysis "講義テキスト" "key" 10 (Except.ok specRawResponse)).retval =
      some specParsedResult :=
  c1_amended "講義テキスト" "key" 10 specRawResponse specParsedResult rfl

/-! ### C2 — fence-marker recovery -/

/-- C2: on the whitespace-trimmed response text, (a) when the text is a
leading marker, a middle and a trailing marker, both markers and nothing
else are stripped; (b) when neither marker is present the text is left
unchanged; (c) when exactly one marker is present and the text remaining
after the stripping stage does not parse as JSON, the pipeline fails as a
parse failure: it returns `None` and shows the parse diagnostic. -/
theorem c2_fence_recovery :
    (∀ mid : List Char, stripFences (leadMarker ++ mid ++ tailMarker) = mid)
    ∧ (∀ s : List Char, leadMarker.isPrefixOf s = false →
        endsWithL tailMarker s = false → stripFences s = s)
    ∧ (∀ (text apiKey : String) (k : Nat) (raw : String) (e : PErr),
        ((leadMarker.isPrefixOf (pyStrip raw.toList) = true ∧
            endsWithL tailMarker ((pyStrip raw.toList).drop 7) = false) ∨
          (leadMarker.isPrefixOf (pyStrip raw.toList) = false ∧
            endsWithL tailMarker (pyStrip raw.toList) = true)) →
        loads (recoverText raw) = Except.error e →
        (generateAnalysis text apiKey k (Except.ok raw)).retval = none ∧
        (generateAnalysis text apiKey k (Except.ok raw)).errorShown =
          some (errHeader ++ renderPErr (recoverText raw) e)) := by
  refine ⟨?_, ?_, ?_⟩
  · intro mid
    rw [List.append_assoc]
    have h1 : leadMarker.isPrefixOf (leadMarker ++ (mid ++ tailMarker)) = true :=
      isPrefixOfAppendSelf _ _
    have h2 : (leadMarker ++ (mid ++ tailMarker)).drop 7 = mid ++ tailMarker :=
      dropAppend leadMarker (mid ++ tailMarker)
    have h3 : endsWithL tailMarker (mid ++ tailMarker) = true := by
      unfold endsWithL
      rw [List.reverse_append]
      exact isPrefixOfAppendSelf _ _
    have h4 : dropLastN 3 (mid ++ tailMarker) = mid := by
      unfold dropLastN
      rw [List.reverse_append]
      have h5 : (tailMarker.reverse ++ mid.reverse).drop 3 = mid.reverse :=
        dropAppend tailMarker.reverse mid.reverse
      rw [h5, List.reverse_reverse]
    simp [stripFences, h1, h2, h3, h4]
  · intro s hpre hsuf
    simp [stripFences, hpre, hsuf]
  · intro text apiKey k raw e _ hloads
    exact ⟨by simp [generateAnalysis, hloads], by simp [generateAnalysis, hloads]⟩

/-- Witness for `c2_fence_recovery`: each part applied at a concrete
input, the one-marker case on a leading-fence-only unparsable text. -/
theorem c2_fence_recovery_witness :
    stripFences (leadMarker ++ "X".toList ++ tailMarker) = "X".toList ∧
    stripFences "abc".toList = "abc".toList ∧
    ((generateAnalysis "t" "key" 10 (Except.ok "```json not json")).retval = none ∧
      (generateAnalysis "t" "key" 10 (Except.ok "```json not json")).errorShown =
        some (errHeader ++ renderPErr (recoverText "```json not json")
          ⟨"Expecting value", 1⟩)) :=
  ⟨c2_fence_recovery.1 "X".toList,
   c2_fence_recovery.2.1 "abc".toList rfl rfl,
   c2_fence_recovery.2.2 "t" "key" 10 "```json not json" ⟨"Expecting value", 1⟩
     (Or.inl ⟨rfl, rfl⟩) rfl⟩

/-! ### C3 — parse failure diagnostics -/

/-- C3 counterexample: the claim says a parse failure on `'not json'`
signals an error from which the raw text is retrievable. The code's only
failure channel is the displayed message (the function returns `None`,
raising nothing), and that message — the fixed Japanese header followed
by the `JSONDecodeError` text — does not contain the raw text `not json`
anywhere, so the raw text is not retrievable from the error. -/
theorem c3_counterexample :
    (generateAnalysis "t" "key" 10 (Except.ok "not json")).retval = none ∧
    (generateAnalysis "t" "key" 10 (Except.ok "not json")).errorShown =
      some (errHeader ++ "Expecting value: line 1 column 1 (char 0)") ∧
    containsRun "not json".toList
      (errHeader ++ "Expecting value: line 1 column 1 (char 0)").toList = false :=
  ⟨rfl, rfl, by decide⟩

/-- C3 amended: on the unparsable response `'not json'`,
`generate_analysis` performs no partial recovery and returns `None`,
displaying one error message made of the fixed header and the parser's
positional diagnostic; the raw response text itself is not carried in
the error. -/
theorem c3_amended :
    generateAnalysis "t" "key" 10 (Except.ok "not json") =
      { apiCalled := true, apiCalls := 1,
        promptSent := some (buildPrompt "t" 10 CATEGORIES),
        errorShown := some (errHeader ++ "Expecting value: line 1 column 1 (char 0)"),
        retval := none } := rfl

/-! ### C4 — empty-transcript validation -/

/-- C4 counterexample: the claim says an empty transcript is rejected
before the external API is invoked. The code has no such check: with an
empty transcript the outbound call is made (and its response is even
parsed and returned). -/
theorem c4_counterexample :
    (generateAnalysis "" "key" 10 (Except.ok "\x7b\x7d")).apiCalled = true ∧
    (generateAnalysis "" "key" 10 (Except.ok "\x7b\x7d")).retval =
      some (PyJson.obj []) :=
  ⟨rfl, rfl⟩

/-- C4 amended: `generate_analysis` performs no transcript validation —
for the empty transcript, and whatever the external call then does, the
API is invoked with the prompt built around the empty text. -/
theorem c4_amended (apiKey : String) (numKeywords : Nat)
    (response : Except ApiFailure String) :
    (generateAnalysis "" apiKey numKeywords response).apiCalled = true ∧
    (generateAnalysis "" apiKey numKeywords response).promptSent =
      some (buildPrompt "" numKeywords CATEGORIES) := by
  cases response with
  | error e => exact ⟨rfl, rfl⟩
  | ok raw => cases h : loads (recoverText raw) <;> simp [generateAnalysis, h]

/-! ### C5 — the spec's worked example -/

/-- C5 counterexample: on the example fenced response with
`max_categories = 2`, the claim asserts the result has categories
truncated to `["X","Y"]`; the code's result keeps `["X","Y","Z"]`, so
the claimed value is not returned. -/
theorem c5_counterexample :
    (generateAnalysis "t" "key" 2 (Except.ok specRawResponse)).retval ≠
      some specClaimedResult := by
  have h : (generateAnalysis "t" "key" 2 (Except.ok specRawResponse)).retval =
      some specParsedResult := rfl
  rw [h]
  simp [specParsedResult, specClaimedResult]

/-- C5 amended: on the example fenced response the fences are stripped
and the JSON parsed, and the result is returned with all three
categories, `{summary: "s", keywords: ["a","b"],
categories: ["X","Y","Z"]}` — no truncation to two entries occurs. -/
theorem c5_amended :
    generateAnalysis "t" "key" 2 (Except.ok specRawResponse) =
      { apiCalled := true, apiCalls := 1,
        promptSent := some (buildPrompt "t" 2 CATEGORIES),
        errorShown := none, retval := some specParsedResult } := rfl

/-! ### C6 — external-call failure handling -/

/-- C6: every failure of the external generative call (auth, quota,
network or otherwise) is surfaced as the pipeline's visible error —
one displayed message carrying the underlying cause (`str(e)` appended
to the fixed header) — the call is made exactly once (no automatic
retry), and no result is returned. -/
theorem c6_service_failure (text apiKey : String) (numKeywords : Nat)
    (e : ApiFailure) :
    (generateAnalysis text apiKey numKeywords (Except.error e)).retval = none ∧
    (generateAnalysis text apiKey numKeywords (Except.error e)).errorShown =
      some (errHeader ++ e.pyStr) ∧
    (generateAnalysis text apiKey numKeywords (Except.error e)).apiCalls = 1 :=
  ⟨rfl, rfl, rfl⟩

/-! ### C7 — temporary-file cleanup -/

/-- C7: on every exit path of one upload-handler invocation — success, a
media failure, a transcription failure, an analysis failure (service or
parse), or a rendering exception — the temporary video and audio files
end up absent from the filesystem, the media handle ends up closed, and
whenever a handle was opened it is closed strictly before its backing
video file is deleted. -/
theorem c7_cleanup (sc : RunScenario) :
    (runUploadHandler sc).videoOnDisk = false ∧
    (runUploadHandler sc).audioOnDisk = false ∧
    (runUploadHandler sc).clipOpen = false ∧
    closeBeforeRemove (runUploadHandler sc).trace = true := by
  cases sc <;> exact ⟨rfl, rfl, rfl, by decide⟩

/-! ### C8 — prompt purity -/

/-- C8: the prompt builder is a pure function of the transcript, the
keyword count and the category vocabulary — equal inputs give
byte-identical prompt text — and every `generate_analysis` invocation
sends exactly the prompt built from its transcript and keyword count
over the fixed vocabulary. -/
theorem c8_prompt_pure :
    (∀ (t1 t2 : String) (k1 k2 : Nat) (v1 v2 : List String),
      t1 = t2 → k1 = k2 → v1 = v2 → buildPrompt t1 k1 v1 = buildPrompt t2 k2 v2)
    ∧ (∀ (text apiKey : String) (k : Nat) (response : Except ApiFailure String),
      (generateAnalysis text apiKey k response).promptSent =
        some (buildPrompt text k CATEGORIES)) := by
  constructor
  · intro t1 t2 k1 k2 v1 v2 h1 h2 h3
    rw [h1, h2, h3]
  · intro text apiKey k response
    cases response with
    | error e => rfl
    | ok raw => cases h : loads (recoverText raw) <;> simp [generateAnalysis, h]

/-- Witness for `c8_prompt_pure` at concrete inputs. -/
theorem c8_prompt_pure_witness :
    buildPrompt "t" 3 CATEGORIES = buildPrompt "t" 3 CATEGORIES ∧
    (generateAnalysis "t" "key" 3 (Except.error (ApiFailure.authError "401"))).promptSent =
      some (buildPrompt "t" 3 CATEGORIES) :=
  ⟨c8_prompt_pure.1 "t" "t" 3 3 CATEGORIES CATEGORIES rfl rfl rfl,
   c8_prompt_pure.2 "t" "key" 3 (Except.error (ApiFailure.authError "401"))⟩

/-! ### C9 — rendering of partial results -/

/-- C9 counterexample: the claim says rendering a parsed object lacking
some fields does not raise. Rendering the truthy object
`{"summary": "s"}`, which lacks `categories`, raises `KeyError` at the
very first subscript. -/
theorem c9_counterexample :
    renderResult (some (PyJson.obj [("summary", PyJson.str "s")])) "tx" =
      Except.error (PyExc.keyError "categories") := rfl

/-- C9 amended: missing fields are indeed left absent in the returned
result (the parsed dictionary is handed over unchanged), but the
rendering layer does not treat absence as "field unavailable": it
subscripts `categories` (then `summary`, then `keywords`)
unconditionally, so rendering any truthy parsed object lacking
`categories` raises `KeyError 'categories'` — caught only by the
handler's generic exception reporter. -/
theorem c9_amended :
    (∀ (text apiKey : String) (k : Nat) (raw : String)
      (pairs : List (String × PyJson)),
      loads (recoverText raw) = Except.ok (PyJson.obj pairs) →
      (generateAnalysis text apiKey k (Except.ok raw)).retval =
        some (PyJson.obj pairs))
    ∧ (∀ (tx : String) (pairs : List (String × PyJson)),
      pairs ≠ [] → dictGet pairs "categories" = none →
      renderResult (some (PyJson.obj pairs)) tx =
        Except.error (PyExc.keyError "categories")) := by
  constructor
  · intro text apiKey k raw pairs h
    simp [generateAnalysis, h]
  · intro tx pairs hne hnone
    have hempty : pairs.isEmpty = false := by
      cases pairs with
      | nil => exact absurd rfl hne
      | cons a l => rfl
    simp [renderResult, pyTruthy, hempty, pySubscript, hnone]

/-- Witness for `c9_amended`: the pass-through at a response missing
`summary`-adjacent fields, and the `KeyError` at the truthy object
lacking `categories`. -/
theorem c9_amended_witness :
    (generateAnalysis "t" "key" 10 (Except.ok "\x7b\"summary\": \"s\"\x7d")).retval =
      some (PyJson.obj [("summary", PyJson.str "s")]) ∧
    renderResult (some (PyJson.obj [("summary", PyJson.str "s")])) "t" =
      Except.error (PyExc.keyError "categories") :=
  ⟨c9_amended.1 "t" "key" 10 "\x7b\"summary\": \"s\"\x7d"
      [("summary", PyJson.str "s")] rfl,
   c9_amended.2 "t" [("summary", PyJson.str "s")]
      (List.cons_ne_nil _ _) rfl⟩

/-! ### C10 — no exception escapes `generate_analysis` -/

/-- C10: `generate_analysis` never propagates an exception — for every
transcript, key, keyword count and behaviour of the external call, it
either returns the value parsed from the (recovered) response text or
returns `None`; every internal failure is caught. -/
theorem c10_no_exception_escape (text apiKey : String) (numKeywords : Nat)
    (response : Except ApiFailure String) :
    (∃ raw j, response = Except.ok raw ∧ loads (recoverText raw) = Except.ok j ∧
      (generateAnalysis text apiKey numKeywords response).retval = some j)
    ∨ (generateAnalysis text apiKey numKeywords response).retval = none := by
  cases response with
  | error e => exact Or.inr rfl
  | ok raw =>
    cases h : loads (recoverText raw) with
    | error e => exact Or.inr (by simp [generateAnalysis, h])
    | ok j => exact Or.inl ⟨raw, j, rfl, h, by simp [generateAnalysis, h]⟩

end MovieTag
